import Mathlib

/-!
Shallow embedding of the YouTube-transcript demo application:
the transcript-resolver endpoint (`src/app/api/youtube/route.ts`, second
revision in the repository, which includes `validateOpenAIKey` and the
401/429 status mapping), the text-cleaner endpoint
(`src/app/api/anthropic/route.ts`) and the client orchestrator
(`src/app/page.tsx`).  External services (caption retrieval, `yt-dlp`,
Whisper, the text-generation API, the HTTP transport) are modelled as an
environment record carrying the outcome each of them would produce; the
endpoint logic itself is translated statement by statement.
-/

set_option maxRecDepth 8192

deriving instance DecidableEq for Except

namespace YTProc

/- ### JavaScript string primitives used by the routes -/

/-- The JavaScript regular-expression whitespace class `\s` (also the set
trimmed by `String.prototype.trim`): space, tab, LF, VT, FF, CR, NBSP and
the Unicode space separators. -/
def isJsWs (c : Char) : Bool :=
  c == ' ' || c == '\t' || c == '\n' || c == '\r' ||
  c == Char.ofNat 0x0B || c == Char.ofNat 0x0C ||
  c == Char.ofNat 0xA0 || c == Char.ofNat 0x1680 ||
  (0x2000 ≤ c.toNat && c.toNat ≤ 0x200A) ||
  c == Char.ofNat 0x2028 || c == Char.ofNat 0x2029 ||
  c == Char.ofNat 0x202F || c == Char.ofNat 0x205F ||
  c == Char.ofNat 0x3000 || c == Char.ofNat 0xFEFF

/-- `s.replace(/\s+/g, ' ')`: every maximal run of whitespace characters
becomes a single space. -/
def collapseWs : List Char → List Char
  | [] => []
  | c :: rest =>
    if isJsWs c then
      match rest with
      | [] => [' ']
      | c₂ :: _ => if isJsWs c₂ then collapseWs rest else ' ' :: collapseWs rest
    else c :: collapseWs rest

/-- `s.trim()`: drop leading and trailing whitespace. -/
def trimWs (l : List Char) : List Char :=
  ((l.dropWhile isJsWs).reverse.dropWhile isJsWs).reverse

/-- `String.prototype.trim` on strings. -/
def jsTrim (s : String) : String := ⟨trimWs s.data⟩

/-- `array.join(' ')`. -/
def joinSpace : List String → String
  | [] => ""
  | [s] => s
  | s :: rest => s ++ " " ++ joinSpace rest

/-- Does `sub` occur as a contiguous block of `l`? -/
def hasSubstr (sub : List Char) : List Char → Bool
  | [] => sub.isPrefixOf []
  | c :: rest => sub.isPrefixOf (c :: rest) || hasSubstr sub rest

/-- `s.includes(sub)`: substring containment. -/
def includes (s sub : String) : Bool := hasSubstr sub.data s.data

/-- JavaScript truthiness of a string-or-undefined value: `undefined` and
the empty string are falsy. -/
def truthy : Option String → Bool
  | none => false
  | some s => !(s == "")

end YTProc

namespace YoutubeRoute

open YTProc

/- ### extractVideoId (route.ts lines 13-24)

The first pattern
`/(?:youtube\.com\/watch\?v=|youtu\.be\/|youtube\.com\/embed\/|youtube\.com\/v\/)([^&\n?#]+)/`
searches for the leftmost position where one of the four literal markers
occurs followed by at least one character outside `&`, newline, `?`, `#`;
the capture is the maximal such run.  The second pattern
`/^([a-zA-Z0-9_-]{11})$/` accepts a bare 11-character identifier. -/

/-- The character class `[^&\n?#]` is the complement of this test. -/
def isDelim (c : Char) : Bool := c == '&' || c == '\n' || c == '?' || c == '#'

/-- The character class `[a-zA-Z0-9_-]` of the bare-identifier pattern. -/
def isIdChar (c : Char) : Bool :=
  ('a' ≤ c && c ≤ 'z') || ('A' ≤ c && c ≤ 'Z') || ('0' ≤ c && c ≤ '9') ||
  c == '_' || c == '-'

/-- The four alternatives of the non-capturing group, in source order. -/
def markers : List (List Char) :=
  ["youtube.com/watch?v=".data, "youtu.be/".data,
   "youtube.com/embed/".data, "youtube.com/v/".data]

/-- Try to match one marker at the current position: the marker must be a
prefix and the following run of non-delimiter characters (the capture of
`([^&\n?#]+)`) must be non-empty. -/
def tryMarker (m l : List Char) : Option (List Char) :=
  if m.isPrefixOf l then
    let cap := (l.drop m.length).takeWhile (fun c => !isDelim c)
    if cap = [] then none else some cap
  else none

/-- Try the four alternatives, in order, at the current position.  (At any
single position at most one marker can match, since the markers pairwise
differ within their common length.) -/
def tryAt (l : List Char) : Option (List Char) :=
  markers.findSome? (fun m => tryMarker m l)

/-- Leftmost-match search of the first pattern over the whole string. -/
def scanUrl : List Char → Option (List Char)
  | [] => none
  | c :: rest =>
    match tryAt (c :: rest) with
    | some cap => some cap
    | none => scanUrl rest

/-- `extractVideoId` (route.ts 13-24): the URL pattern is tried first,
then the anchored bare-identifier pattern; `null` if neither matches. -/
def extractVideoId (url : String) : Option String :=
  match scanUrl url.data with
  | some cap => some ⟨cap⟩
  | none =>
    if url.length = 11 ∧ (∀ c ∈ url.data, isIdChar c = true) then some url
    else none

/- ### The transcript-resolver endpoint (route.ts `POST`, second revision) -/

/-- Error messages of `validateOpenAIKey` (route.ts 238-248). -/
def msgNotSet : String := "OPENAI_API_KEY is not set in environment variables"

def msgWrongStart : String :=
  "OPENAI_API_KEY appears to be invalid (should start with \"sk-\")"

def msgTooShort : String := "OPENAI_API_KEY appears to be too short"

/-- Error message when no key is configured at all (route.ts 339-343). -/
def noKeyMsg : String :=
  "No transcript available for this video, and OpenAI API key is not configured for Whisper fallback. Please add OPENAI_API_KEY to your .env.local file."

/-- Error message when `yt-dlp` is absent (route.ts 354-361). -/
def ytDlpMsg : String :=
  "No transcript available. Whisper fallback requires yt-dlp to be installed (brew install yt-dlp)."

/-- Error thrown when the Whisper transcript is unusable (route.ts 370-372). -/
def tooShortMsg : String := "Whisper transcription was empty or too short"

/-- The apostrophe character, used inside one diagnostic message below. -/
def apos : String := String.singleton (Char.ofNat 39)

/-- 401 message of the Whisper error classifier (route.ts 391-393). -/
def invalidKeyMsg : String :=
  "Invalid or incorrect OpenAI API key. Please check your OPENAI_API_KEY in .env.local and ensure it" ++
  apos ++ "s valid. Get a new key at https://platform.openai.com/account/api-keys"

/-- 429 message of the classifier (route.ts 394-396). -/
def rateLimitMsg : String := "OpenAI rate limit reached. Please try again later."

/-- 500 message of the classifier for an unset key (route.ts 397-399). -/
def keyNotConfiguredMsg : String :=
  "OpenAI API key is not configured. Please add OPENAI_API_KEY to your .env.local file."

/-- `validateOpenAIKey` (route.ts 238-248): shape validation of the
credential before use.  `none` models an unset environment variable; the
empty string is falsy in JavaScript, so both hit the first check. -/
def validateOpenAIKey (apiKey : Option String) : Except String Unit :=
  match apiKey with
  | none => .error msgNotSet
  | some k =>
    if k = "" then .error msgNotSet
    else if ("sk-".data.isPrefixOf k.data) = false then .error msgWrongStart
    else if k.length < 20 then .error msgTooShort
    else .ok ()

/-- Video metadata returned by `yt-dlp --dump-json` (route.ts 213-228). -/
structure VideoInfo where
  title : String
  duration : Nat
deriving DecidableEq

/-- A remote-service error: OpenAI SDK errors carry an HTTP status and an
error code besides the message; plain `Error`s carry only a message. -/
structure ApiErr where
  status : Option Nat
  code : Option String
  msg : String
deriving DecidableEq

/-- Outcome of `downloadAudio` (route.ts 231-235): success creates the
temporary file; a failure may or may not have left a partial file behind
(the cleanup code checks `existsSync` for exactly this reason). -/
inductive DlOutcome
  | success
  | failCreated (msg : String)
  | failClean (msg : String)
deriving DecidableEq

/-- Network calls the resolver can make, in the order they appear. -/
inductive Ev
  | nativeFetch
  | metadataProbe
  | audioDownload
  | whisperRequest
deriving DecidableEq

/-- The environment of one resolver invocation: the request body and the
outcome each external collaborator would produce if called. -/
structure ResolverEnv where
  url : Option String
  openaiKey : Option String
  ytDlp : Bool
  native : Except Unit (List String)
  metadata : Except String VideoInfo
  download : DlOutcome
  whisper : Except ApiErr String
deriving DecidableEq

/-- The endpoint's JSON response: a success payload
`computedContent/title/usedWhisper` or an `error` payload with a status. -/
inductive Resp
  | ok (content title : String) (usedWhisper : Bool)
  | err (status : Nat) (error : String)
deriving DecidableEq

/-- HTTP status of a response (200 on the success constructor). -/
def Resp.statusCode : Resp → Nat
  | .ok _ _ _ => 200
  | .err s _ => s

/-- The `finally` block of `transcribeWithWhisper` (route.ts 287-292):
`if (fs.existsSync(tempFile)) fs.unlinkSync(tempFile)`.  Input: whether
the temporary file exists on leaving the `try`; output: whether it still
exists after the cleanup. -/
def cleanupTemp (tempExists : Bool) : Bool :=
  if tempExists then false else tempExists

/-- `transcribeWithWhisper` (route.ts 251-293).  Returns the outcome
(transcript and title, or the thrown error), whether the temporary audio
file still exists after the function returns, and the network calls made.
Every exit path of the `try` goes through `cleanupTemp`. -/
def transcribeWithWhisper (env : ResolverEnv) :
    Except ApiErr (String × String) × Bool × List Ev :=
  match validateOpenAIKey env.openaiKey with
  | .error m => (.error ⟨none, none, m⟩, false, [])
  | .ok _ =>
    match env.metadata with
    | .error m =>
      (.error ⟨none, none, "Failed to get video info: " ++ m⟩, false, [.metadataProbe])
    | .ok info =>
      match env.download with
      | .failClean m =>
        (.error ⟨none, none, m⟩, cleanupTemp false, [.metadataProbe, .audioDownload])
      | .failCreated m =>
        (.error ⟨none, none, m⟩, cleanupTemp true, [.metadataProbe, .audioDownload])
      | .success =>
        match env.whisper with
        | .error e =>
          (.error e, cleanupTemp true, [.metadataProbe, .audioDownload, .whisperRequest])
        | .ok t =>
          (.ok (t, info.title), cleanupTemp true,
           [.metadataProbe, .audioDownload, .whisperRequest])

/-- The native-caption normalisation (route.ts 315-321):
`items.map(i => i.text).join(' ').replace(/\s+/g, ' ').trim()`. -/
def joinTranscript (items : List String) : String :=
  ⟨trimWs (collapseWs (joinSpace items).data)⟩

/-- STEP 1 of `POST` (route.ts 312-331): the native transcript usable by
the endpoint, if any — the fragment list must be non-empty and the
normalised text at least 50 characters, otherwise the code throws into
the Whisper fallback. -/
def nativeTranscript (native : Except Unit (List String)) : Option String :=
  match native with
  | .error _ => none
  | .ok items =>
    if items = [] then none
    else
      let t := joinTranscript items
      if 50 ≤ t.length then some t else none

/-- The `catch (whisperError)` classifier (route.ts 380-405). -/
def classifyWhisperError (e : ApiErr) : Resp :=
  if e.status = some 401 ∨ e.code = some "invalid_api_key" ∨
     includes e.msg "API key" = true ∨ includes e.msg "Incorrect API key" = true then
    .err 401 invalidKeyMsg
  else if e.status = some 429 ∨ includes e.msg "rate limit" = true then
    .err 429 rateLimitMsg
  else if includes e.msg "OPENAI_API_KEY is not set" = true then
    .err 500 keyNotConfiguredMsg
  else
    .err 500 ("Whisper transcription failed: " ++ e.msg)

/-- STEP 2 of `POST` (route.ts 335-407): the Whisper fallback, entered
when the native path yields nothing usable.  `[.nativeFetch]` records the
caption retrieval already attempted by STEP 1. -/
def fallbackWhisper (env : ResolverEnv) : Resp × List Ev × Bool :=
  if truthy env.openaiKey = false then (.err 500 noKeyMsg, [.nativeFetch], false)
  else
    match validateOpenAIKey env.openaiKey with
    | .error m => (.err 500 m, [.nativeFetch], false)
    | .ok _ =>
      if env.ytDlp = false then (.err 500 ytDlpMsg, [.nativeFetch], false)
      else
        match transcribeWithWhisper env with
        | (.ok (t, ti), fs, evs) =>
          if t = "" ∨ t.length < 50 then
            (classifyWhisperError ⟨none, none, tooShortMsg⟩, .nativeFetch :: evs, fs)
          else (.ok t ti true, .nativeFetch :: evs, fs)
        | (.error e, fs, evs) => (classifyWhisperError e, .nativeFetch :: evs, fs)

/-- The resolver endpoint `POST` (route.ts 295-408).  Returns the JSON
response, the list of outbound network calls made, and whether the
temporary audio file remains on the filesystem afterwards. -/
def POST (env : ResolverEnv) : Resp × List Ev × Bool :=
  match env.url with
  | none => (.err 400 "No URL provided", [], false)
  | some u =>
    if u = "" then (.err 400 "No URL provided", [], false)
    else
      match extractVideoId u with
      | none => (.err 400 "Invalid YouTube URL", [], false)
      | some vid =>
        match nativeTranscript env.native with
        | some t => (.ok t ("YouTube Video " ++ vid) false, [.nativeFetch], false)
        | none => fallbackWhisper env

end YoutubeRoute

namespace AnthropicRoute

open YTProc

/- ### The text-cleaner endpoint (`src/app/api/anthropic/route.ts`) -/

/-- The single outbound call to the text-generation service, carrying the
composed prompt. -/
inductive CleanEv
  | remoteCall (prompt : String)
deriving DecidableEq

/-- Environment of one cleaning invocation: the configured credential and
the outcome of the remote call.  A successful reply is the text of
`message.content[0]` (the code casts that block to a text block) together
with the texts of the remaining blocks. -/
structure CleanEnv where
  anthropicKey : Option String
  remote : Except String (String × List String)
deriving DecidableEq

/-- The cleaner's JSON response: `{ result }` or `{ error }`. -/
inductive CleanResp
  | ok (result : String)
  | err (status : Nat) (error : String)
deriving DecidableEq

/-- The prompt composition (route.ts 20-26). -/
def fullPrompt (task content : String) : String :=
  "<task>\n" ++ task ++ "\n</task>\n\n<content>\n" ++ content ++ "\n</content>"

/-- The cleaner endpoint `POST` (route.ts 8-44): argument check, then
credential check, then the single remote call, whose first text block is
returned verbatim. -/
def POST (env : CleanEnv) (content task : Option String) : CleanResp × List CleanEv :=
  match content, task with
  | some c, some t =>
    if c = "" ∨ t = "" then (.err 400 "Content and task are required", [])
    else if truthy env.anthropicKey = false then
      (.err 500 "Anthropic API key not configured", [])
    else
      match env.remote with
      | .error m => (.err 500 m, [.remoteCall (fullPrompt t c)])
      | .ok (first, _) => (.ok first, [.remoteCall (fullPrompt t c)])
  | _, _ => (.err 400 "Content and task are required", [])

end AnthropicRoute

namespace Page

open YTProc

/- ### The client orchestrator (`src/app/page.tsx`, `handleSubmit`) -/

/-- The resolver's success payload as consumed by the page. -/
structure TranscriptOk where
  content : String
  title : String
  usedWhisper : Bool
deriving DecidableEq

/-- Environment of one run: the URL in the input field and the outcome
each of the two endpoint calls would produce.  A failed call carries the
`error` field of the HTTP error payload. -/
structure OrchEnv where
  urlInput : String
  resolver : Except String TranscriptOk
  cleaner : Except String String
deriving DecidableEq

/-- The component state after `handleSubmit` finishes, plus whether the
cleaning endpoint was ever invoked during the run. -/
structure OrchResult where
  error : Option String
  rawTranscript : Option String
  cleanedTranscript : Option String
  videoTitle : Option String
  usedWhisper : Bool
  cleanerInvoked : Bool
deriving DecidableEq

/-- `err.response.data.error || 'Failed to process video'` (page.tsx 72). -/
def orNoVideoMsg (e : String) : String :=
  if e = "" then "Failed to process video" else e

/-- `handleSubmit` (page.tsx 16-80): reject a blank URL, call the
resolver, on success store its payload and call the cleaner, on any
failure store the error message; the `catch` aborts the sequence. -/
def handleSubmit (env : OrchEnv) : OrchResult :=
  if jsTrim env.urlInput = "" then
    { error := some "Please enter a YouTube URL", rawTranscript := none,
      cleanedTranscript := none, videoTitle := none, usedWhisper := false,
      cleanerInvoked := false }
  else
    match env.resolver with
    | .error e =>
      { error := some (orNoVideoMsg e), rawTranscript := none,
        cleanedTranscript := none, videoTitle := none, usedWhisper := false,
        cleanerInvoked := false }
    | .ok r =>
      match env.cleaner with
      | .error e =>
        { error := some (orNoVideoMsg e), rawTranscript := some r.content,
          cleanedTranscript := none, videoTitle := some r.title,
          usedWhisper := r.usedWhisper, cleanerInvoked := true }
      | .ok cleaned =>
        { error := none, rawTranscript := some r.content,
          cleanedTranscript := some cleaned, videoTitle := some r.title,
          usedWhisper := r.usedWhisper, cleanerInvoked := true }

/-- The spec's per-run phases, derived from the final component state. -/
inductive Phase
  | idle
  | complete
  | failed
deriving DecidableEq

/-- A run ends `failed` when an error is displayed, `complete` when a
cleaned transcript is displayed. -/
def finalPhase (r : OrchResult) : Phase :=
  if r.error.isSome then .failed
  else if r.cleanedTranscript.isSome then .complete
  else .idle

end Page

section ExtractLemmas

open YTProc YoutubeRoute

/-- A valid video identifier per the spec: 11 characters from the bare-id
character class. -/
def isValidId (id : String) : Prop :=
  id.length = 11 ∧ ∀ c ∈ id.data, isIdChar c = true

/-- Modelled from the spec: the supported URL shapes `watch?v=ID`,
short-link `/ID`, `/embed/ID`, `/v/ID` (in their canonical full-URL
forms, as in the spec's own example) and the bare identifier. -/
def SupportedShape (url id : String) : Prop :=
  isValidId id ∧
  (url = "https://www.youtube.com/watch?v=" ++ id ∨
   url = "https://youtu.be/" ++ id ∨
   url = "https://www.youtube.com/embed/" ++ id ∨
   url = "https://www.youtube.com/v/" ++ id ∨
   url = id)

instance (id : String) : Decidable (isValidId id) := by
  unfold isValidId; infer_instance

instance (url id : String) : Decidable (SupportedShape url id) := by
  unfold SupportedShape; infer_instance

lemma strData_append (s t : String) : (s ++ t).data = s.data ++ t.data := by
  cases s; cases t; rfl

lemma isPrefixOf_append_self (m l : List Char) : m.isPrefixOf (m ++ l) = true := by
  induction m with
  | nil => simp [List.isPrefixOf]
  | cons a as ih => simp [List.isPrefixOf, ih]

lemma isPrefixOf_false_of_get_ne :
    ∀ (i : Nat) (m l : List Char) (hm : i < m.length) (hl : i < l.length),
      m.get ⟨i, hm⟩ ≠ l.get ⟨i, hl⟩ → m.isPrefixOf l = false
  | _, [], _, hm, _, _ => absurd hm (by simp)
  | _, _ :: _, [], _, hl, _ => absurd hl (by simp)
  | 0, a :: _, b :: _, _, _, hne => by
    have hab : (a == b) = false := beq_eq_false_iff_ne.mpr hne
    simp [List.isPrefixOf, hab]
  | i + 1, a :: as, b :: bs, hm, hl, hne => by
    by_cases hab : a = b
    · subst hab
      have hrec := isPrefixOf_false_of_get_ne i as bs
        (Nat.lt_of_succ_lt_succ hm) (Nat.lt_of_succ_lt_succ hl) hne
      simp [List.isPrefixOf, hrec]
    · simp [List.isPrefixOf, beq_eq_false_iff_ne.mpr hab]

lemma get_append_left :
    ∀ (p l : List Char) (i : Nat) (hip : i < p.length) (h : i < (p ++ l).length),
      (p ++ l).get ⟨i, h⟩ = p.get ⟨i, hip⟩
  | [], _, _, hip, _ => absurd hip (by simp)
  | _ :: _, _, 0, _, _ => rfl
  | _ :: as, l, i + 1, hip, h =>
    get_append_left as l i (Nat.lt_of_succ_lt_succ hip) (Nat.lt_of_succ_lt_succ h)

lemma takeWhile_eq_self_of_all (p : Char → Bool) :
    ∀ l : List Char, (∀ c ∈ l, p c = true) → l.takeWhile p = l
  | [], _ => rfl
  | c :: rest, h => by
    have hc : p c = true := h c (by simp)
    have hrec := takeWhile_eq_self_of_all p rest (fun d hd => h d (by simp [hd]))
    simp [List.takeWhile_cons, hc, hrec]

lemma tryMarker_append (m l : List Char) (hne : l ≠ [])
    (hl : ∀ c ∈ l, isDelim c = false) : tryMarker m (m ++ l) = some l := by
  have hcap : (fun c => !isDelim c) = (fun c => !isDelim c) := rfl
  have htk : l.takeWhile (fun c => !isDelim c) = l :=
    takeWhile_eq_self_of_all _ l (fun c hc => by simp [hl c hc])
  simp [tryMarker, isPrefixOf_append_self, List.drop_left, htk, hne]

lemma tryMarker_none_of_mismatch (m p l : List Char) (i : Nat)
    (him : i < m.length) (hip : i < p.length)
    (hne : m.get ⟨i, him⟩ ≠ p.get ⟨i, hip⟩) : tryMarker m (p ++ l) = none := by
  have h1 : i < (p ++ l).length := by simp; omega
  have h2 : (p ++ l).get ⟨i, h1⟩ = p.get ⟨i, hip⟩ := get_append_left p l i hip h1
  have h3 : m.isPrefixOf (p ++ l) = false :=
    isPrefixOf_false_of_get_ne i m (p ++ l) him h1 (by rw [h2]; exact hne)
  simp [tryMarker, h3]

lemma tryMarker_none_of_head_ne (m' : List Char) (c : Char) (rest : List Char)
    (h : c ≠ 'y') : tryMarker ('y' :: m') (c :: rest) = none := by
  have hp : (('y' :: m').isPrefixOf (c :: rest)) = false := by
    simp [List.isPrefixOf, beq_eq_false_iff_ne.mpr (fun e => h e.symm)]
  simp [tryMarker, hp]

lemma tryAt_none_of_ne_y (c : Char) (rest : List Char) (h : c ≠ 'y') :
    tryAt (c :: rest) = none := by
  have m1 : tryMarker ("youtube.com/watch?v=".data) (c :: rest) = none := by
    have e : ("youtube.com/watch?v=".data) = 'y' :: "outube.com/watch?v=".data := rfl
    rw [e]; exact tryMarker_none_of_head_ne _ c rest h
  have m2 : tryMarker ("youtu.be/".data) (c :: rest) = none := by
    have e : ("youtu.be/".data) = 'y' :: "outu.be/".data := rfl
    rw [e]; exact tryMarker_none_of_head_ne _ c rest h
  have m3 : tryMarker ("youtube.com/embed/".data) (c :: rest) = none := by
    have e : ("youtube.com/embed/".data) = 'y' :: "outube.com/embed/".data := rfl
    rw [e]; exact tryMarker_none_of_head_ne _ c rest h
  have m4 : tryMarker ("youtube.com/v/".data) (c :: rest) = none := by
    have e : ("youtube.com/v/".data) = 'y' :: "outube.com/v/".data := rfl
    rw [e]; exact tryMarker_none_of_head_ne _ c rest h
  simp only [tryAt, markers, List.findSome?_cons, List.findSome?_nil, m1, m2, m3, m4]

lemma scanUrl_cons_none (c : Char) (rest : List Char)
    (h : tryAt (c :: rest) = none) : scanUrl (c :: rest) = scanUrl rest := by
  simp [scanUrl, h]

lemma scanUrl_cons_some (c : Char) (rest cap : List Char)
    (h : tryAt (c :: rest) = some cap) : scanUrl (c :: rest) = some cap := by
  simp [scanUrl, h]

lemma scanUrl_append_no_y :
    ∀ (p l : List Char), (∀ c ∈ p, c ≠ 'y') → scanUrl (p ++ l) = scanUrl l
  | [], _, _ => rfl
  | c :: p', l, h => by
    rw [List.cons_append,
      scanUrl_cons_none c (p' ++ l) (tryAt_none_of_ne_y c _ (h c (by simp))),
      scanUrl_append_no_y p' l (fun d hd => h d (by simp [hd]))]

lemma tryAt_watch (id : List Char) (hne : id ≠ [])
    (hid : ∀ c ∈ id, isDelim c = false) :
    tryAt ("youtube.com/watch?v=".data ++ id) = some id := by
  have h1 := tryMarker_append ("youtube.com/watch?v=".data) id hne hid
  simp only [tryAt, markers, List.findSome?_cons, List.findSome?_nil, h1]

lemma tryAt_short (id : List Char) (hne : id ≠ [])
    (hid : ∀ c ∈ id, isDelim c = false) :
    tryAt ("youtu.be/".data ++ id) = some id := by
  have h1 : tryMarker ("youtube.com/watch?v=".data) ("youtu.be/".data ++ id) = none :=
    tryMarker_none_of_mismatch _ _ id 5 (by decide) (by decide) (by decide)
  have h2 := tryMarker_append ("youtu.be/".data) id hne hid
  simp only [tryAt, markers, List.findSome?_cons, List.findSome?_nil, h1, h2]

lemma tryAt_embed (id : List Char) (hne : id ≠ [])
    (hid : ∀ c ∈ id, isDelim c = false) :
    tryAt ("youtube.com/embed/".data ++ id) = some id := by
  have h1 : tryMarker ("youtube.com/watch?v=".data) ("youtube.com/embed/".data ++ id) = none :=
    tryMarker_none_of_mismatch _ _ id 12 (by decide) (by decide) (by decide)
  have h2 : tryMarker ("youtu.be/".data) ("youtube.com/embed/".data ++ id) = none :=
    tryMarker_none_of_mismatch _ _ id 5 (by decide) (by decide) (by decide)
  have h3 := tryMarker_append ("youtube.com/embed/".data) id hne hid
  simp only [tryAt, markers, List.findSome?_cons, List.findSome?_nil, h1, h2, h3]

lemma tryAt_v (id : List Char) (hne : id ≠ [])
    (hid : ∀ c ∈ id, isDelim c = false) :
    tryAt ("youtube.com/v/".data ++ id) = some id := by
  have h1 : tryMarker ("youtube.com/watch?v=".data) ("youtube.com/v/".data ++ id) = none :=
    tryMarker_none_of_mismatch _ _ id 12 (by decide) (by decide) (by decide)
  have h2 : tryMarker ("youtu.be/".data) ("youtube.com/v/".data ++ id) = none :=
    tryMarker_none_of_mismatch _ _ id 5 (by decide) (by decide) (by decide)
  have h3 : tryMarker ("youtube.com/embed/".data) ("youtube.com/v/".data ++ id) = none :=
    tryMarker_none_of_mismatch _ _ id 12 (by decide) (by decide) (by decide)
  have h4 := tryMarker_append ("youtube.com/v/".data) id hne hid
  simp only [tryAt, markers, List.findSome?_cons, List.findSome?_nil, h1, h2, h3, h4]

lemma scanUrl_watch (id : List Char) (hne : id ≠ [])
    (hid : ∀ c ∈ id, isDelim c = false) :
    scanUrl ("https://www.youtube.com/watch?v=".data ++ id) = some id := by
  have hdec : "https://www.youtube.com/watch?v=".data =
      "https://www.".data ++ "youtube.com/watch?v=".data := by decide
  rw [hdec, List.append_assoc, scanUrl_append_no_y _ _ (by decide)]
  exact scanUrl_cons_some 'y' ("outube.com/watch?v=".data ++ id) id (tryAt_watch id hne hid)

lemma scanUrl_short (id : List Char) (hne : id ≠ [])
    (hid : ∀ c ∈ id, isDelim c = false) :
    scanUrl ("https://youtu.be/".data ++ id) = some id := by
  have hdec : "https://youtu.be/".data = "https://".data ++ "youtu.be/".data := by decide
  rw [hdec, List.append_assoc, scanUrl_append_no_y _ _ (by decide)]
  exact scanUrl_cons_some 'y' ("outu.be/".data ++ id) id (tryAt_short id hne hid)

lemma scanUrl_embed (id : List Char) (hne : id ≠ [])
    (hid : ∀ c ∈ id, isDelim c = false) :
    scanUrl ("https://www.youtube.com/embed/".data ++ id) = some id := by
  have hdec : "https://www.youtube.com/embed/".data =
      "https://www.".data ++ "youtube.com/embed/".data := by decide
  rw [hdec, List.append_assoc, scanUrl_append_no_y _ _ (by decide)]
  exact scanUrl_cons_some 'y' ("outube.com/embed/".data ++ id) id (tryAt_embed id hne hid)

lemma scanUrl_v (id : List Char) (hne : id ≠ [])
    (hid : ∀ c ∈ id, isDelim c = false) :
    scanUrl ("https://www.youtube.com/v/".data ++ id) = some id := by
  have hdec : "https://www.youtube.com/v/".data =
      "https://www.".data ++ "youtube.com/v/".data := by decide
  rw [hdec, List.append_assoc, scanUrl_append_no_y _ _ (by decide)]
  exact scanUrl_cons_some 'y' ("outube.com/v/".data ++ id) id (tryAt_v id hne hid)

lemma isPrefixOf_true_mem :
    ∀ (m l : List Char), m.isPrefixOf l = true → ∀ c ∈ m, c ∈ l
  | [], _, _, c, hc => absurd hc (by simp)
  | _ :: _, [], h, _, _ => by simp [List.isPrefixOf] at h
  | a :: as, b :: bs, h, c, hc => by
    have h' : (a == b) = true ∧ as.isPrefixOf bs = true := by
      simpa [List.isPrefixOf, Bool.and_eq_true] using h
    rcases List.mem_cons.mp hc with rfl | hmem
    · simp [beq_iff_eq.mp h'.1]
    · exact List.mem_cons_of_mem b (isPrefixOf_true_mem as bs h'.2 c hmem)

lemma isDelim_false_of_idChar (c : Char) (h : isIdChar c = true) :
    isDelim c = false := by
  cases hd : isDelim c with
  | false => rfl
  | true =>
    exfalso
    have hcs := hd
    simp only [isDelim, Bool.or_eq_true, beq_iff_eq] at hcs
    rcases hcs with ((rfl | rfl) | rfl) | rfl <;> exact absurd h (by decide)

lemma tryMarker_none_of_idchars (m l : List Char) (hdot : '.' ∈ m)
    (hl : ∀ c ∈ l, isIdChar c = true) : tryMarker m l = none := by
  cases hp : m.isPrefixOf l with
  | true =>
    exfalso
    have hdl : '.' ∈ l := isPrefixOf_true_mem m l hp '.' hdot
    exact absurd (hl '.' hdl) (by decide)
  | false => simp [tryMarker, hp]

lemma tryAt_none_of_idchars (l : List Char)
    (hl : ∀ c ∈ l, isIdChar c = true) : tryAt l = none := by
  have h1 := tryMarker_none_of_idchars ("youtube.com/watch?v=".data) l (by decide) hl
  have h2 := tryMarker_none_of_idchars ("youtu.be/".data) l (by decide) hl
  have h3 := tryMarker_none_of_idchars ("youtube.com/embed/".data) l (by decide) hl
  have h4 := tryMarker_none_of_idchars ("youtube.com/v/".data) l (by decide) hl
  simp [tryAt, markers, List.findSome?_cons, h1, h2, h3, h4]

lemma scanUrl_none_of_idchars :
    ∀ l : List Char, (∀ c ∈ l, isIdChar c = true) → scanUrl l = none
  | [], _ => rfl
  | c :: rest, h => by
    rw [scanUrl_cons_none c rest (tryAt_none_of_idchars _ h),
      scanUrl_none_of_idchars rest (fun d hd => h d (by simp [hd]))]

/-- The positive half of the extractor property: every supported shape
with a valid identifier extracts exactly that identifier. -/
lemma extract_of_shape (url id : String) (h : SupportedShape url id) :
    extractVideoId url = some id := by
  obtain ⟨⟨hlen, hchars⟩, hshape⟩ := h
  have hne : id.data ≠ [] := by
    intro habs
    have h0 : id.length = 0 := by simp [String.length, habs]
    omega
  have hdelim : ∀ c ∈ id.data, isDelim c = false :=
    fun c hc => isDelim_false_of_idChar c (hchars c hc)
  rcases hshape with rfl | rfl | rfl | rfl | hbare
  · unfold extractVideoId
    rw [strData_append, scanUrl_watch id.data hne hdelim]
  · unfold extractVideoId
    rw [strData_append, scanUrl_short id.data hne hdelim]
  · unfold extractVideoId
    rw [strData_append, scanUrl_embed id.data hne hdelim]
  · unfold extractVideoId
    rw [strData_append, scanUrl_v id.data hne hdelim]
  · subst hbare
    unfold extractVideoId
    rw [scanUrl_none_of_idchars _ hchars]
    exact if_pos ⟨hlen, hchars⟩

end ExtractLemmas

section ResolverLemmas

open YTProc YoutubeRoute

/-- The resolver reaches the Whisper fallback: a usable request URL whose
identifier extracts, but no usable native transcript. -/
def FallbackPre (env : ResolverEnv) (u vid : String) : Prop :=
  env.url = some u ∧ u ≠ "" ∧ extractVideoId u = some vid ∧
  nativeTranscript env.native = none

/-- A credential that passes every check of `validateOpenAIKey`. -/
def ValidKey (k : String) : Prop :=
  k ≠ "" ∧ ("sk-".data.isPrefixOf k.data) = true ∧ 20 ≤ k.length

instance (env : ResolverEnv) (u vid : String) :
    Decidable (FallbackPre env u vid) := by
  unfold FallbackPre; infer_instance

instance (k : String) : Decidable (ValidKey k) := by
  unfold ValidKey; infer_instance

lemma validate_ok_of_valid (k : String) (h : ValidKey k) :
    validateOpenAIKey (some k) = .ok () := by
  obtain ⟨h1, h2, h3⟩ := h
  have h4 : ¬ (k.length < 20) := by omega
  simp [validateOpenAIKey, h1, h2, h4]

lemma POST_native (env : ResolverEnv) (u vid t : String)
    (hu : env.url = some u) (hne : u ≠ "") (hv : extractVideoId u = some vid)
    (ht : nativeTranscript env.native = some t) :
    POST env = (.ok t ("YouTube Video " ++ vid) false, [.nativeFetch], false) := by
  simp [POST, hu, hne, hv, ht]

lemma POST_fallback (env : ResolverEnv) (u vid : String)
    (h : FallbackPre env u vid) : POST env = fallbackWhisper env := by
  obtain ⟨h1, h2, h3, h4⟩ := h
  simp [POST, h1, h2, h3, h4]

lemma fallback_noKey (env : ResolverEnv) (hk : truthy env.openaiKey = false) :
    fallbackWhisper env = (.err 500 noKeyMsg, [.nativeFetch], false) := by
  simp [fallbackWhisper, hk]

lemma fallback_invalid (env : ResolverEnv) (m : String)
    (hk : truthy env.openaiKey = true)
    (hv : validateOpenAIKey env.openaiKey = .error m) :
    fallbackWhisper env = (.err 500 m, [.nativeFetch], false) := by
  simp [fallbackWhisper, hk, hv]

lemma truthy_of_validKey (env : ResolverEnv) (k : String)
    (hk : env.openaiKey = some k) (hv : ValidKey k) :
    truthy env.openaiKey = true := by
  simp [truthy, hk, hv.1]

lemma fallback_noYtDlp (env : ResolverEnv) (k : String)
    (hk : env.openaiKey = some k) (hv : ValidKey k) (hyt : env.ytDlp = false) :
    fallbackWhisper env = (.err 500 ytDlpMsg, [.nativeFetch], false) := by
  have htr := truthy_of_validKey env k hk hv
  have hok : validateOpenAIKey env.openaiKey = .ok () := by
    rw [hk]; exact validate_ok_of_valid k hv
  simp [fallbackWhisper, htr, hok, hyt]

lemma transcribe_ok (env : ResolverEnv) (k : String) (info : VideoInfo) (t : String)
    (hk : env.openaiKey = some k) (hv : ValidKey k)
    (hmd : env.metadata = .ok info) (hdl : env.download = .success)
    (hw : env.whisper = .ok t) :
    transcribeWithWhisper env =
      (.ok (t, info.title), false, [.metadataProbe, .audioDownload, .whisperRequest]) := by
  have hok : validateOpenAIKey env.openaiKey = .ok () := by
    rw [hk]; exact validate_ok_of_valid k hv
  simp [transcribeWithWhisper, hok, hmd, hdl, hw, cleanupTemp]

lemma transcribe_err (env : ResolverEnv) (k : String) (info : VideoInfo) (e : ApiErr)
    (hk : env.openaiKey = some k) (hv : ValidKey k)
    (hmd : env.metadata = .ok info) (hdl : env.download = .success)
    (hw : env.whisper = .error e) :
    transcribeWithWhisper env =
      (.error e, false, [.metadataProbe, .audioDownload, .whisperRequest]) := by
  have hok : validateOpenAIKey env.openaiKey = .ok () := by
    rw [hk]; exact validate_ok_of_valid k hv
  simp [transcribeWithWhisper, hok, hmd, hdl, hw, cleanupTemp]

lemma POST_whisper_ok (env : ResolverEnv) (u vid k : String) (info : VideoInfo)
    (t : String) (h : FallbackPre env u vid) (hk : env.openaiKey = some k)
    (hv : ValidKey k) (hyt : env.ytDlp = true) (hmd : env.metadata = .ok info)
    (hdl : env.download = .success) (hw : env.whisper = .ok t)
    (hlen : 50 ≤ t.length) :
    POST env = (.ok t info.title true,
      [.nativeFetch, .metadataProbe, .audioDownload, .whisperRequest], false) := by
  rw [POST_fallback env u vid h]
  have htr := truthy_of_validKey env k hk hv
  have hok : validateOpenAIKey env.openaiKey = .ok () := by
    rw [hk]; exact validate_ok_of_valid k hv
  have htw := transcribe_ok env k info t hk hv hmd hdl hw
  have hcond : ¬ (t = "" ∨ t.length < 50) := by
    rintro (rfl | hlt)
    · exact absurd hlen (by decide)
    · omega
  simp [fallbackWhisper, htr, hok, hyt, htw, hcond]

lemma POST_whisper_err (env : ResolverEnv) (u vid k : String) (info : VideoInfo)
    (e : ApiErr) (h : FallbackPre env u vid) (hk : env.openaiKey = some k)
    (hv : ValidKey k) (hyt : env.ytDlp = true) (hmd : env.metadata = .ok info)
    (hdl : env.download = .success) (hw : env.whisper = .error e) :
    POST env = (classifyWhisperError e,
      [.nativeFetch, .metadataProbe, .audioDownload, .whisperRequest], false) := by
  rw [POST_fallback env u vid h]
  have htr := truthy_of_validKey env k hk hv
  have hok : validateOpenAIKey env.openaiKey = .ok () := by
    rw [hk]; exact validate_ok_of_valid k hv
  have htw := transcribe_err env k info e hk hv hmd hdl hw
  simp [fallbackWhisper, htr, hok, hyt, htw]

lemma POST_whisper_short (env : ResolverEnv) (u vid k : String) (info : VideoInfo)
    (t : String) (h : FallbackPre env u vid) (hk : env.openaiKey = some k)
    (hv : ValidKey k) (hyt : env.ytDlp = true) (hmd : env.metadata = .ok info)
    (hdl : env.download = .success) (hw : env.whisper = .ok t)
    (hshort : t.length < 50) :
    POST env = (classifyWhisperError ⟨none, none, tooShortMsg⟩,
      [.nativeFetch, .metadataProbe, .audioDownload, .whisperRequest], false) := by
  rw [POST_fallback env u vid h]
  have htr := truthy_of_validKey env k hk hv
  have hok : validateOpenAIKey env.openaiKey = .ok () := by
    rw [hk]; exact validate_ok_of_valid k hv
  have htw := transcribe_ok env k info t hk hv hmd hdl hw
  have hcond : t = "" ∨ t.length < 50 := .inr hshort
  simp [fallbackWhisper, htr, hok, hyt, htw, hcond]

lemma classify_401 (e : ApiErr)
    (h : e.status = some 401 ∨ e.code = some "invalid_api_key") :
    classifyWhisperError e = .err 401 invalidKeyMsg := by
  rcases h with h | h <;> simp [classifyWhisperError, h]

lemma classify_429 (e : ApiErr) (h1 : e.status = some 429)
    (h2 : e.code ≠ some "invalid_api_key")
    (h3 : includes e.msg "API key" = false)
    (h4 : includes e.msg "Incorrect API key" = false) :
    classifyWhisperError e = .err 429 rateLimitMsg := by
  simp [classifyWhisperError, h1, h2, h3, h4]

lemma classify_generic_500 (e : ApiErr) (h0 : e.status = none) (h1 : e.code = none)
    (h3 : includes e.msg "API key" = false)
    (h4 : includes e.msg "Incorrect API key" = false)
    (h5 : includes e.msg "rate limit" = false) :
    (classifyWhisperError e).statusCode = 500 := by
  by_cases h6 : includes e.msg "OPENAI_API_KEY is not set" = true
  · simp [classifyWhisperError, h0, h1, h3, h4, h5, h6, Resp.statusCode]
  · simp [classifyWhisperError, h0, h1, h3, h4, h5, h6, Resp.statusCode]

lemma transcribe_fs (env : ResolverEnv) : (transcribeWithWhisper env).2.1 = false := by
  unfold transcribeWithWhisper
  rcases validateOpenAIKey env.openaiKey with m | u
  · rfl
  · rcases env.metadata with m | info
    · rfl
    · rcases env.download with _ | m | m
      · rcases env.whisper with e | t <;> rfl
      · rfl
      · rfl

lemma fallback_fs (env : ResolverEnv) : (fallbackWhisper env).2.2 = false := by
  have hfs := transcribe_fs env
  unfold fallbackWhisper
  by_cases h1 : truthy env.openaiKey = false
  · simp [h1]
  · rcases hv : validateOpenAIKey env.openaiKey with m | u
    · simp [h1, hv]
    · by_cases h2 : env.ytDlp = false
      · simp [h1, hv, h2]
      · rcases htw : transcribeWithWhisper env with ⟨res, fs, evs⟩
        have hfs' : fs = false := by rw [htw] at hfs; exact hfs
        subst hfs'
        rcases res with e | ⟨t, ti⟩
        · simp [h1, hv, h2, htw]
        · by_cases h3 : t = "" ∨ t.length < 50
          · simp [h1, hv, h2, htw, h3]
          · simp [h1, hv, h2, htw, h3]

lemma POST_fs (env : ResolverEnv) : (POST env).2.2 = false := by
  unfold POST
  rcases env.url with _ | u
  · rfl
  · by_cases hu : u = ""
    · simp [hu]
    · rcases hx : extractVideoId u with _ | vid
      · simp [hu, hx]
      · rcases hn : nativeTranscript env.native with _ | t
        · simp [hu, hx, hn, fallback_fs env]
        · simp [hu, hx, hn]

end ResolverLemmas

section ResolverClaims

open YTProc YoutubeRoute

lemma strLength_append (s t : String) : (s ++ t).length = s.length + t.length := by
  show (s ++ t).data.length = s.data.length + t.data.length
  rw [strData_append, List.length_append]

/-- C1 counterexample: the string `"youtube.com/watch?v=abc"` matches none of
the supported URL shapes (every canonical shape with an 11-character
identifier has a different length, and the string itself is not 11
characters), yet the extractor does return an identifier — the 3-character
capture `"abc"` — and the resolver, far from failing with the 400
invalid-URL error, proceeds into the fallback (here reaching the 500
missing-key error). -/
theorem c1_counterexample :
    (¬ ∃ id, SupportedShape "youtube.com/watch?v=abc" id) ∧
    extractVideoId "youtube.com/watch?v=abc" = some "abc" ∧
    ¬ ("abc".length = 11) ∧
    (POST ⟨some "youtube.com/watch?v=abc", none, false, .error (), .error "",
      .failClean "", .error ⟨none, none, ""⟩⟩).1 = .err 500 noKeyMsg := by
  refine ⟨?_, by decide, by decide, by decide⟩
  rintro ⟨id, ⟨⟨hlen, -⟩, hshape⟩⟩
  rcases hshape with h | h | h | h | h
  · have hl := congrArg String.length h
    rw [strLength_append, hlen] at hl
    exact absurd hl (by decide)
  · have hl := congrArg String.length h
    rw [strLength_append, hlen] at hl
    exact absurd hl (by decide)
  · have hl := congrArg String.length h
    rw [strLength_append, hlen] at hl
    exact absurd hl (by decide)
  · have hl := congrArg String.length h
    rw [strLength_append, hlen] at hl
    exact absurd hl (by decide)
  · rw [← h] at hlen
    exact absurd hlen (by decide)

/-- C1 (amended): for every supported URL shape with a valid 11-character
identifier the extractor returns exactly that identifier, and whenever the
extractor returns no identifier the resolver fails with the 400 invalid-URL
error, making no outbound call.  (The converse direction of the original
claim fails: a string outside the shapes can still yield a capture, see the
counterexample.) -/
theorem c1_extractor (env : ResolverEnv) (url id u : String) :
    (SupportedShape url id → extractVideoId url = some id) ∧
    (env.url = some u → u ≠ "" → extractVideoId u = none →
      POST env = (.err 400 "Invalid YouTube URL", [], false)) := by
  constructor
  · exact extract_of_shape url id
  · intro hu hne hx
    simp [POST, hu, hne, hx]

/-- C1 witness: the amended theorem applied to a concrete watch URL and to a
concrete string rejected by both patterns. -/
theorem c1_extractor_witness :
    extractVideoId "https://www.youtube.com/watch?v=abc12345678" = some "abc12345678" ∧
    POST ⟨some "not a url", none, false, .error (), .error "", .failClean "",
      .error ⟨none, none, ""⟩⟩ = (.err 400 "Invalid YouTube URL", [], false) :=
  ⟨(c1_extractor ⟨some "not a url", none, false, .error (), .error "",
      .failClean "", .error ⟨none, none, ""⟩⟩
      "https://www.youtube.com/watch?v=abc12345678" "abc12345678" "not a url").1
      (by decide),
   (c1_extractor ⟨some "not a url", none, false, .error (), .error "",
      .failClean "", .error ⟨none, none, ""⟩⟩
      "https://www.youtube.com/watch?v=abc12345678" "abc12345678" "not a url").2
      rfl (by decide) (by decide)⟩

/-- C2: whenever native caption retrieval yields a non-empty fragment list
whose space-joined, whitespace-collapsed, trimmed text reaches 50
characters, the resolver succeeds with exactly that text and
`usedWhisper = false` (source NATIVE); in particular the fragments
`["Hello", "world"]` normalise to `"Hello world"`. -/
theorem c2_native_success (env : ResolverEnv) (u vid : String)
    (items : List String) (hu : env.url = some u) (hne : u ≠ "")
    (hv : extractVideoId u = some vid) (hnat : env.native = .ok items)
    (hitems : items ≠ []) (hlen : 50 ≤ (joinTranscript items).length) :
    POST env = (.ok (joinTranscript items) ("YouTube Video " ++ vid) false,
      [.nativeFetch], false) ∧
    joinTranscript ["Hello", "world"] = "Hello world" := by
  constructor
  · apply POST_native env u vid _ hu hne hv
    simp [nativeTranscript, hnat, hitems, hlen]
  · decide

/-- C2 witness: a concrete native-path success returning the normalised
caption text. -/
theorem c2_native_success_witness :
    POST ⟨some "https://www.youtube.com/watch?v=abc12345678", none, false,
      .ok ["This is a sufficiently long native caption transcript for testing."],
      .error "", .failClean "", .error ⟨none, none, ""⟩⟩
    = (.ok (joinTranscript
        ["This is a sufficiently long native caption transcript for testing."])
        ("YouTube Video " ++ "abc12345678") false, [.nativeFetch], false) :=
  (c2_native_success _ "https://www.youtube.com/watch?v=abc12345678" "abc12345678"
    ["This is a sufficiently long native caption transcript for testing."]
    rfl (by decide) (by decide) rfl (by decide) (by decide)).1

/-- C3 counterexample: a concrete native-path success returns the title
`"YouTube Video abc12345678"`, which differs from the claimed placeholder
`"Video " ++ "abc12345678"`. -/
theorem c3_counterexample :
    (POST ⟨some "https://www.youtube.com/watch?v=abc12345678", none, false,
      .ok ["Captions long enough to pass the fifty character threshold easily."],
      .error "", .failClean "", .error ⟨none, none, ""⟩⟩).1
    = .ok (joinTranscript
        ["Captions long enough to pass the fifty character threshold easily."])
        "YouTube Video abc12345678" false ∧
    "YouTube Video abc12345678" ≠ "Video " ++ "abc12345678" :=
  ⟨by decide, by decide⟩

/-- C3 (amended): every native-path success reports the synthesized
placeholder title `"YouTube Video " ++ identifier` (not
`"Video " ++ identifier`). -/
theorem c3_placeholder_title (env : ResolverEnv) (u vid t : String)
    (hu : env.url = some u) (hne : u ≠ "") (hv : extractVideoId u = some vid)
    (ht : nativeTranscript env.native = some t) :
    ∃ content, POST env
      = (.ok content ("YouTube Video " ++ vid) false, [.nativeFetch], false) :=
  ⟨t, POST_native env u vid t hu hne hv ht⟩

/-- C3 witness: the amended theorem at a concrete short-link request. -/
theorem c3_placeholder_title_witness :
    ∃ content, POST ⟨some "https://youtu.be/abc12345678", none, false,
      .ok ["Captions long enough to pass the fifty character threshold easily."],
      .error "", .failClean "", .error ⟨none, none, ""⟩⟩
      = (.ok content ("YouTube Video " ++ "abc12345678") false, [.nativeFetch], false) :=
  c3_placeholder_title _ "https://youtu.be/abc12345678" "abc12345678"
    (joinTranscript
      ["Captions long enough to pass the fifty character threshold easily."])
    rfl (by decide) (by decide) (by decide)

/-- C4: the temporary audio file never survives a resolver invocation —
`transcribeWithWhisper` reports the file absent on every one of its exit
paths (success, failed download, failed transcription), and so does the
whole endpoint on every path. -/
theorem c4_temp_cleanup :
    ∀ env : ResolverEnv,
      (transcribeWithWhisper env).2.1 = false ∧ (POST env).2.2 = false :=
  fun env => ⟨transcribe_fs env, POST_fs env⟩

/-- C5 counterexample: with the credential configured as the empty string —
which `validateOpenAIKey` itself classifies as malformed, via its first
check — the resolver fails with the missing-key message of the earlier
presence check, not with any of the validator messages the claim calls the
MalformedCredential error. -/
theorem c5_counterexample :
    validateOpenAIKey (some "") = .error msgNotSet ∧
    (POST ⟨some "abc12345678", some "", true, .error (), .error "",
      .failClean "", .error ⟨none, none, ""⟩⟩).1 = .err 500 noKeyMsg ∧
    noKeyMsg ≠ msgNotSet ∧ noKeyMsg ≠ msgWrongStart ∧ noKeyMsg ≠ msgTooShort :=
  ⟨by decide, by decide, by decide, by decide, by decide⟩

/-- C5 (amended): entering the fallback with a malformed credential fails
immediately with a descriptive 500 error and no metadata probe, audio
download or transcription request (the trace holds only the native-caption
attempt): an absent or empty credential yields the missing-key message,
a wrong start yields the validator message about the expected start, and a
too-short key yields the validator too-short message. -/
theorem c5_malformed_credential (env : ResolverEnv) (u vid : String)
    (h : FallbackPre env u vid) :
    ((env.openaiKey = none ∨ env.openaiKey = some "") →
      POST env = (.err 500 noKeyMsg, [.nativeFetch], false)) ∧
    (∀ k, env.openaiKey = some k → k ≠ "" →
      ("sk-".data.isPrefixOf k.data) = false →
      POST env = (.err 500 msgWrongStart, [.nativeFetch], false)) ∧
    (∀ k, env.openaiKey = some k → k ≠ "" →
      ("sk-".data.isPrefixOf k.data) = true → k.length < 20 →
      POST env = (.err 500 msgTooShort, [.nativeFetch], false)) := by
  refine ⟨?_, ?_, ?_⟩
  · intro hk
    rw [POST_fallback env u vid h]
    apply fallback_noKey
    rcases hk with hk | hk <;> simp [truthy, hk]
  · intro k hk hne hpre
    rw [POST_fallback env u vid h]
    apply fallback_invalid env msgWrongStart (by simp [truthy, hk, hne])
    simp [validateOpenAIKey, hk, hne, hpre]
  · intro k hk hne hpre hlen
    rw [POST_fallback env u vid h]
    apply fallback_invalid env msgTooShort (by simp [truthy, hk, hne])
    simp [validateOpenAIKey, hk, hne, hpre, hlen]

/-- C5 witness: a concrete wrong-start credential is rejected before any
fallback network call. -/
theorem c5_malformed_credential_witness :
    POST ⟨some "abc12345678", some "AKIA-wrong-start-key-123", true, .error (),
      .error "", .failClean "", .error ⟨none, none, ""⟩⟩
    = (.err 500 msgWrongStart, [.nativeFetch], false) :=
  (c5_malformed_credential _ "abc12345678" "abc12345678" (by decide)).2.1
    "AKIA-wrong-start-key-123" rfl (by decide) (by decide)

/-- C6: every failing response is an `err` payload carrying a message, with
status 400 for malformed input (missing URL, unextractable locator), 500
for configuration failures (missing or malformed credential, missing
yt-dlp), 401 when the remote service rejects the credential, 429 when the
remote service rate-limits, and 500 for other transcription failures
including a too-short transcript. -/
theorem c6_status_codes (env : ResolverEnv) :
    ((env.url = none ∨ env.url = some "") →
      (POST env).1 = .err 400 "No URL provided") ∧
    (∀ u, env.url = some u → u ≠ "" → extractVideoId u = none →
      (POST env).1 = .err 400 "Invalid YouTube URL") ∧
    (∀ u vid, FallbackPre env u vid →
      (∀ m, validateOpenAIKey env.openaiKey = .error m →
        (POST env).1.statusCode = 500) ∧
      (∀ k, env.openaiKey = some k → ValidKey k → env.ytDlp = false →
        (POST env).1.statusCode = 500) ∧
      (∀ k info e, env.openaiKey = some k → ValidKey k → env.ytDlp = true →
        env.metadata = .ok info → env.download = .success →
        env.whisper = .error e →
        ((e.status = some 401 ∨ e.code = some "invalid_api_key") →
          (POST env).1 = .err 401 invalidKeyMsg) ∧
        (e.status = some 429 → e.code ≠ some "invalid_api_key" →
          includes e.msg "API key" = false →
          includes e.msg "Incorrect API key" = false →
          (POST env).1 = .err 429 rateLimitMsg) ∧
        (e.status = none → e.code = none →
          includes e.msg "API key" = false →
          includes e.msg "Incorrect API key" = false →
          includes e.msg "rate limit" = false →
          (POST env).1.statusCode = 500)) ∧
      (∀ k info t, env.openaiKey = some k → ValidKey k → env.ytDlp = true →
        env.metadata = .ok info → env.download = .success →
        env.whisper = .ok t → t.length < 50 →
        (POST env).1.statusCode = 500)) ∧
    ((POST env).1.statusCode ≠ 200 → ∃ s m, (POST env).1 = .err s m) := by
  refine ⟨?_, ?_, ?_, ?_⟩
  · rintro (hk | hk) <;> simp [POST, hk]
  · intro u hu hne hx
    simp [POST, hu, hne, hx]
  · intro u vid hf
    refine ⟨?_, ?_, ?_, ?_⟩
    · intro m hm
      rw [POST_fallback env u vid hf]
      by_cases htr : truthy env.openaiKey = false
      · rw [fallback_noKey env htr]; rfl
      · have htr' : truthy env.openaiKey = true := by
          rcases hb : truthy env.openaiKey
          · exact absurd hb htr
          · rfl
        rw [fallback_invalid env m htr' hm]; rfl
    · intro k hk hv hyt
      rw [POST_fallback env u vid hf, fallback_noYtDlp env k hk hv hyt]; rfl
    · intro k info e hk hv hyt hmd hdl hw
      refine ⟨?_, ?_, ?_⟩
      · intro hcase
        rw [POST_whisper_err env u vid k info e hf hk hv hyt hmd hdl hw]
        exact classify_401 e hcase
      · intro h1 h2 h3 h4
        rw [POST_whisper_err env u vid k info e hf hk hv hyt hmd hdl hw]
        exact classify_429 e h1 h2 h3 h4
      · intro h0 h1 h3 h4 h5
        rw [POST_whisper_err env u vid k info e hf hk hv hyt hmd hdl hw]
        exact classify_generic_500 e h0 h1 h3 h4 h5
    · intro k info t hk hv hyt hmd hdl hw hshort
      rw [POST_whisper_short env u vid k info t hf hk hv hyt hmd hdl hw hshort]
      decide
  · intro hne
    rcases hp : (POST env).1 with ⟨c, ti, w⟩ | ⟨s, m⟩
    · exfalso
      apply hne
      rw [hp]
      rfl
    · exact ⟨s, m, by simp [hp]⟩

/-- C6 witness: concrete whisper-path errors with remote status 401 and 429
are surfaced with those status codes. -/
theorem c6_status_codes_witness :
    (POST ⟨some "abc12345678", some "sk-12345678901234567890", true, .error (),
      .ok ⟨"T", 60⟩, .success, .error ⟨some 401, none, "Unauthorized"⟩⟩).1
      = .err 401 invalidKeyMsg ∧
    (POST ⟨some "abc12345678", some "sk-12345678901234567890", true, .error (),
      .ok ⟨"T", 60⟩, .success, .error ⟨some 429, none, "Too many requests"⟩⟩).1
      = .err 429 rateLimitMsg := by
  constructor
  · exact (((c6_status_codes _).2.2.1 "abc12345678" "abc12345678"
      (by decide)).2.2.1 "sk-12345678901234567890" ⟨"T", 60⟩
      ⟨some 401, none, "Unauthorized"⟩ rfl (by decide) rfl rfl rfl rfl).1
      (Or.inl rfl)
  · exact ((((c6_status_codes _).2.2.1 "abc12345678" "abc12345678"
      (by decide)).2.2.1 "sk-12345678901234567890" ⟨"T", 60⟩
      ⟨some 429, none, "Too many requests"⟩ rfl (by decide) rfl rfl rfl rfl).2.1
      rfl (by decide) (by decide) (by decide))

/-- C10: a fallback (TRANSCRIBED) success returns the speech-to-text output
verbatim as `content`, together with the metadata title and
`usedWhisper = true` — no whitespace collapsing and no trimming of the
transcript happens on this path. -/
theorem c10_whisper_verbatim (env : ResolverEnv) (u vid k : String)
    (info : VideoInfo) (t : String) (h : FallbackPre env u vid)
    (hk : env.openaiKey = some k) (hv : ValidKey k) (hyt : env.ytDlp = true)
    (hmd : env.metadata = .ok info) (hdl : env.download = .success)
    (hw : env.whisper = .ok t) (hlen : 50 ≤ t.length) :
    POST env = (.ok t info.title true,
      [.nativeFetch, .metadataProbe, .audioDownload, .whisperRequest], false) :=
  POST_whisper_ok env u vid k info t h hk hv hyt hmd hdl hw hlen

/-- C10 witness: a concrete Whisper transcript full of repeated whitespace
comes back exactly as produced — and differs from what the native-path
normalisation would have made of it. -/
theorem c10_whisper_verbatim_witness :
    POST ⟨some "abc12345678", some "sk-12345678901234567890", true, .error (),
      .ok ⟨"Real Title", 60⟩, .success,
      .ok "  double  spaces   and  trailing  whitespace  are  kept  "⟩
    = (.ok "  double  spaces   and  trailing  whitespace  are  kept  "
        "Real Title" true,
      [.nativeFetch, .metadataProbe, .audioDownload, .whisperRequest], false) ∧
    "  double  spaces   and  trailing  whitespace  are  kept  "
      ≠ joinTranscript ["  double  spaces   and  trailing  whitespace  are  kept  "] :=
  ⟨c10_whisper_verbatim _ "abc12345678" "abc12345678" "sk-12345678901234567890"
    ⟨"Real Title", 60⟩ "  double  spaces   and  trailing  whitespace  are  kept  "
    (by decide) rfl (by decide) rfl rfl rfl rfl (by decide), by decide⟩

end ResolverClaims

section CleanerClaims

open YTProc

/-- C7: a successful cleaning call returns the first text segment of the
remote response verbatim — the `result` field is exactly that segment, with
no trimming, truncation or reformatting — via a single remote call carrying
the composed prompt. -/
theorem c7_cleaner_verbatim (env : AnthropicRoute.CleanEnv)
    (c t first : String) (rest : List String) (hc : c ≠ "") (ht : t ≠ "")
    (hkey : truthy env.anthropicKey = true)
    (hr : env.remote = .ok (first, rest)) :
    AnthropicRoute.POST env (some c) (some t)
      = (.ok first, [.remoteCall (AnthropicRoute.fullPrompt t c)]) := by
  simp [AnthropicRoute.POST, hc, ht, hkey, hr]

/-- C7 witness: a remote reply with leading, internal and trailing
whitespace is handed back byte for byte. -/
theorem c7_cleaner_verbatim_witness :
    AnthropicRoute.POST ⟨some "sk-ant-key", .ok ("  model   output \n", [])⟩
      (some "raw transcript") (some "clean this up")
    = (.ok "  model   output \n",
       [.remoteCall (AnthropicRoute.fullPrompt "clean this up" "raw transcript")]) :=
  c7_cleaner_verbatim _ "raw transcript" "clean this up" "  model   output \n" []
    (by decide) (by decide) (by decide) rfl

/-- C8: a missing or empty `content` or `task` makes the cleaner fail with
the 400 missing-argument error and an empty call trace (no remote call);
with both arguments present but no configured credential it fails with the
500 missing-credential error, again with no remote call. -/
theorem c8_cleaner_guards (env : AnthropicRoute.CleanEnv) :
    (∀ content task : Option String,
      (content = none ∨ content = some "" ∨ task = none ∨ task = some "") →
      AnthropicRoute.POST env content task
        = (.err 400 "Content and task are required", [])) ∧
    (∀ c t : String, c ≠ "" → t ≠ "" → truthy env.anthropicKey = false →
      AnthropicRoute.POST env (some c) (some t)
        = (.err 500 "Anthropic API key not configured", [])) := by
  constructor
  · rintro content task (rfl | rfl | rfl | rfl)
    · rcases task with _ | t1 <;> rfl
    · rcases task with _ | t1
      · rfl
      · simp [AnthropicRoute.POST]
    · rcases content with _ | c1 <;> rfl
    · rcases content with _ | c1
      · rfl
      · simp [AnthropicRoute.POST]
  · intro c t hc ht hkey
    simp [AnthropicRoute.POST, hc, ht, hkey]

/-- C8 witness: an empty `content` gives the 400 error with no remote call;
a missing credential with both arguments present gives the 500 error with
no remote call. -/
theorem c8_cleaner_guards_witness :
    AnthropicRoute.POST ⟨some "sk-ant-key", .ok ("x", [])⟩ (some "") (some "clean")
      = (.err 400 "Content and task are required", []) ∧
    AnthropicRoute.POST ⟨none, .ok ("x", [])⟩ (some "raw") (some "clean")
      = (.err 500 "Anthropic API key not configured", []) :=
  ⟨(c8_cleaner_guards ⟨some "sk-ant-key", .ok ("x", [])⟩).1 (some "") (some "clean")
    (Or.inr (Or.inl rfl)),
   (c8_cleaner_guards ⟨none, .ok ("x", [])⟩).2 "raw" "clean"
    (by decide) (by decide) (by decide)⟩

end CleanerClaims

section OrchestratorClaims

open YTProc Page

/-- C9: whenever the transcript-resolver call of a run fails, the run ends
in the failed phase, no cleaned transcript exists, and the text-cleaner
endpoint is never invoked during that run. -/
theorem c9_resolver_failure_aborts (env : OrchEnv) (e : String)
    (hu : jsTrim env.urlInput ≠ "") (hr : env.resolver = .error e) :
    finalPhase (handleSubmit env) = .failed ∧
    (handleSubmit env).cleanerInvoked = false ∧
    (handleSubmit env).cleanedTranscript = none := by
  unfold handleSubmit
  simp [hu, hr, finalPhase]

/-- C9 witness: a concrete failed resolver call leaves the cleaner
uninvoked and the run failed. -/
theorem c9_resolver_failure_aborts_witness :
    finalPhase (handleSubmit ⟨"https://youtu.be/abc12345678",
      .error "Invalid YouTube URL", .ok "cleaned"⟩) = .failed ∧
    (handleSubmit ⟨"https://youtu.be/abc12345678",
      .error "Invalid YouTube URL", .ok "cleaned"⟩).cleanerInvoked = false ∧
    (handleSubmit ⟨"https://youtu.be/abc12345678",
      .error "Invalid YouTube URL", .ok "cleaned"⟩).cleanedTranscript = none :=
  c9_resolver_failure_aborts _ "Invalid YouTube URL" (by decide) rfl

end OrchestratorClaims
